import Mathlib

/-!
Verification of the cohort-computation layer of the ir-team-exercise
repository (helper.py, checks.py, clean.py, headcount_calcs.py).

Tables are embedded as lists of typed rows whose cells are `Option String`
(`none` models a pandas missing value, which `dropna` removes and which
compares unequal to every string).  Python integers are `ℤ`, Python string
slicing and int/str conversion are modelled on `String.data` character
lists, and exact rationals `ℚ` stand in for Python floats, with Python's
banker's rounding (`round`) modelled exactly by `roundHalfEven`.
Fallible Python code (raising functions) returns `Option`/`Except`.
-/

/-! ## Python string/number primitives -/

/-- Value of a list of decimal digit characters, most significant first
(the accumulator loop of Python's `int`). -/
def parseDigits (l : List Char) : ℕ :=
  l.foldl (fun n c => 10 * n + (c.toNat - 48)) 0

/-- A nonempty, all-digit character list. -/
def isDigits (l : List Char) : Bool :=
  !l.isEmpty && l.all Char.isDigit

/-- Python `int(s)` on a decimal string literal (optional leading minus);
`none` models the `ValueError` Python raises on any other string. -/
def pyInt? (s : String) : Option ℤ :=
  if s.data.head? = some '-' then
    if isDigits s.data.tail then some (-(parseDigits s.data.tail : ℤ)) else none
  else if isDigits s.data then some ((parseDigits s.data : ℤ)) else none

/-- Decimal digits of a natural number, with explicit structural fuel
(the fuel `n + 1` always suffices). -/
def pyNatReprAux : ℕ → ℕ → List Char
  | 0, _ => []
  | fuel + 1, n =>
    if n < 10 then [Nat.digitChar n]
    else pyNatReprAux fuel (n / 10) ++ [Nat.digitChar (n % 10)]

/-- Decimal digits of a natural number, most significant first. -/
def pyNatRepr (n : ℕ) : List Char := pyNatReprAux (n + 1) n

/-- Python `str` on an int. -/
def pyStr (z : ℤ) : String :=
  if z < 0 then "-" ++ String.mk (pyNatRepr z.natAbs) else String.mk (pyNatRepr z.natAbs)

/-- Python slice `s[a:b]` for `0 ≤ a ≤ b`. -/
def pySlice (s : String) (a b : ℕ) : String :=
  String.mk ((s.data.drop a).take (b - a))

/-- Python slice `s[-2:]`. -/
def pyTail2 (s : String) : String :=
  String.mk (s.data.drop (s.data.length - 2))

/-- Fractional-literal parsing core for `pandas.to_numeric`: integer part,
optional dot, fractional part. -/
def pyFloatCore (l : List Char) : Option ℚ :=
  match l.dropWhile (fun c => c != '.') with
  | [] => if isDigits l then some ((parseDigits l : ℚ)) else none
  | _ :: frac =>
    let ip := l.takeWhile (fun c => c != '.')
    if frac.isEmpty then
      if isDigits ip then some ((parseDigits ip : ℚ)) else none
    else if (ip.isEmpty || isDigits ip) && isDigits frac then
      some ((parseDigits ip : ℚ) + (parseDigits frac : ℚ) / (10 ^ frac.length))
    else none

/-- `pandas.to_numeric(·, errors='coerce')` on one cell: `none` models the
NaN produced for a non-numeric string. -/
def pyFloat? (s : String) : Option ℚ :=
  if s.data.head? = some '-' then (pyFloatCore s.data.tail).map (fun q => -q)
  else pyFloatCore s.data

/-! ## Python `round` (banker's rounding, exact over `ℚ`) -/

/-- Round half to even, Python's `round` on an exact value. -/
def roundHalfEven (x : ℚ) : ℤ :=
  if x - ⌊x⌋ < 1 / 2 then ⌊x⌋
  else if 1 / 2 < x - ⌊x⌋ then ⌊x⌋ + 1
  else if ⌊x⌋ % 2 = 0 then ⌊x⌋ else ⌊x⌋ + 1

/-- Python `round(q, n)` for a natural number of decimal places. -/
def pyRound (q : ℚ) (n : ℕ) : ℚ :=
  (roundHalfEven (q * 10 ^ n) : ℚ) / 10 ^ n

/-- Python `round(q, n)` for an arbitrary integer number of decimal places
(negative `n` rounds to tens, hundreds, ...). -/
def pyRoundAt (q : ℚ) (n : ℤ) : ℚ :=
  (roundHalfEven (q * 10 ^ n) : ℚ) / 10 ^ n

/-! ## helper.py -/

/-- `adjust_term(term, years)`:
`"".join([str(int(term[:4]) + years), term[-2:]])`; `none` models the
`ValueError` of `int` on a non-numeric year prefix. -/
def adjust_term (term : String) (years : ℤ) : Option String :=
  (pyInt? (pySlice term 0 4)).map (fun y => pyStr (y + years) ++ pyTail2 term)

/-- `calc_academic_year_from_term(term, two_digit)`:
`term[2:4] + str(int(term[2:4])+1)` when `two_digit`, else
`"-".join([term[:4], str(int(term[:4]) + 1)])`. -/
def calc_academic_year_from_term (term : String) (two_digit : Bool) : Option String :=
  if two_digit then
    (pyInt? (pySlice term 2 4)).map (fun n => pySlice term 2 4 ++ pyStr (n + 1))
  else
    (pyInt? (pySlice term 0 4)).map (fun n => pySlice term 0 4 ++ "-" ++ pyStr (n + 1))

/-- `construct_cohort(term, cohort_type)`: `" ".join([term[:4], cohort_type])`.
Call sites pass the source's default `"Fall, First-Time, Full-Time"` explicitly. -/
def construct_cohort (term : String) (cohort_type : String) : String :=
  pySlice term 0 4 ++ " " ++ cohort_type

/-- A Python value passed to `calc_percent` (int, float, or something
non-numeric such as a string). -/
inductive PyVal
  | vint (z : ℤ)
  | vfloat (q : ℚ)
  | vstr (s : String)
deriving DecidableEq

/-- `isinstance(v, (int, float))`. -/
def PyVal.isNumeric : PyVal → Bool
  | .vint _ => true
  | .vfloat _ => true
  | .vstr _ => false

/-- Numeric value of a numeric `PyVal` (unused on non-numeric ones). -/
def PyVal.toQ : PyVal → ℚ
  | .vint z => (z : ℚ)
  | .vfloat q => q
  | .vstr _ => 0

inductive PercentError
  | typeError
  | zeroDivisionError
deriving DecidableEq

/-- `calc_percent(num, denom, round_to)` from helper.py: after the
isinstance check it runs `round_to = round(abs(round_to), 0)` and returns
`round(num/denom, round_to)`.  A float `round_to` stays a float through
`round(·, 0)`, so the final `round` raises `TypeError` (after `num/denom`,
so a zero `denom` raises `ZeroDivisionError` first); an int `round_to`
becomes `abs(round_to)`. -/
def calc_percent (num denom round_to : PyVal) : Except PercentError ℚ :=
  if !(num.isNumeric && denom.isNumeric && round_to.isNumeric) then
    Except.error PercentError.typeError
  else
    match round_to with
    | PyVal.vint z =>
      if denom.toQ = 0 then Except.error PercentError.zeroDivisionError
      else Except.ok (pyRound (num.toQ / denom.toQ) z.natAbs)
    | _ =>
      if denom.toQ = 0 then Except.error PercentError.zeroDivisionError
      else Except.error PercentError.typeError

/-! ## Table rows

Each input table is a list of typed rows; a field holds the cell of the
named column, `none` being a missing value. -/

/-- One row of the Pell table (columns `AID_YEAR` and the identifier). -/
structure PellRow where
  aid_year : Option String
  id : Option String
deriving DecidableEq

/-- One row of the Undergraduate Retention and Graduation table. -/
structure RetRow where
  cohort_name : Option String
  years_to_graduation : Option String
  acad_period_2nd_fall : Option String
  id : Option String
deriving DecidableEq

/-- One row of the Census Date Enrollment table. -/
structure EnrRow where
  academic_period : Option String
  time_status : Option String
  student_level : Option String
  degree : Option String
  id : Option String
deriving DecidableEq

/-- `filter_enrollment_table(dfe, term)` from helper.py:
`Academic Period == term` and `Time Status == 'FT'` and
`Student Level == 'UG'` and `Degree != 'Non Degree'` (a missing `Degree`
cell passes `!=`, missing cells fail `==`, as in pandas). -/
def filter_enrollment_table (dfe : List EnrRow) (term : String) : List EnrRow :=
  dfe.filter (fun r =>
    r.academic_period == some term &&
    r.time_status == some "FT" &&
    r.student_level == some "UG" &&
    !(r.degree == some "Non Degree"))

/-! ## checks.py -/

inductive ValidateError
  | typeError
  | missingColumns (missing : Finset String)
deriving DecidableEq

/-- `validate_columns(df, id_column, required_cols)` from checks.py,
modelled on the column-name list of the dataframe.  `required_cols=None`
(the declared default) hits `set(None)`, a `TypeError`; otherwise
`required = set(required_cols) ∪ {id_column}` and a nonempty
`missing = required - set(df.columns)` raises a `ValueError` carrying the
missing set. -/
def validate_columns (df_columns : List String) (id_column : String)
    (required_cols : Option (List String)) : Except ValidateError Unit :=
  match required_cols with
  | none => Except.error ValidateError.typeError
  | some rc =>
    if (insert id_column rc.toFinset) \ df_columns.toFinset = ∅ then Except.ok ()
    else Except.error (ValidateError.missingColumns
      ((insert id_column rc.toFinset) \ df_columns.toFinset))

/-! ## clean.py -/

inductive CleanError
  | valueError (msg : String)
  | keyError (key : String)
deriving DecidableEq

/-- A generic dataframe, column-oriented: column names with cell lists. -/
structure Df where
  cols : List (String × List (Option String))
deriving DecidableEq

/-- The column names of a `Df`. -/
def dfColumns (df : Df) : List String := df.cols.map (fun kv => kv.1)

/-- `astype(str)` on one cell (pandas renders a missing value as `"nan"`). -/
def pyAstypeStr (cell : Option String) : String :=
  match cell with
  | none => "nan"
  | some s => s

/-- Python `str.lstrip('0')`. -/
def lstripZeros (s : String) : String :=
  String.mk (s.data.dropWhile (fun c => c == '0'))

/-- `remove_leading_zeros(df, column)` from clean.py: checks that `column`
is present (else `ValueError`), then runs
`df['ID'] = df['ID'].astype(str).str.lstrip('0')` — the hard-coded `'ID'`
column, not `column`; reading `df['ID']` raises `KeyError` when no `ID`
column exists. -/
def remove_leading_zeros (df : Df) (column : String) : Except CleanError Df :=
  if column ∈ dfColumns df then
    if "ID" ∈ dfColumns df then
      Except.ok ⟨df.cols.map (fun kv =>
        if kv.1 = "ID" then (kv.1, kv.2.map (fun cell => some (lstripZeros (pyAstypeStr cell))))
        else kv)⟩
    else Except.error (CleanError.keyError "ID")
  else Except.error (CleanError.valueError (column ++ " column is not present in the dataframe."))

/-! ## headcount_calcs.py -/

/-- `fall_enrollment(dfp, dfr, dfe, id_column, term, pell, transfer)`:
the four subpopulation headcounts.  `none` models the `ValueError` of
`calc_academic_year_from_term` on a malformed term. -/
def fall_enrollment (dfp : List PellRow) (dfr : List RetRow) (dfe : List EnrRow)
    (term : String) (pell transfer : Bool) : Option ℤ :=
  (calc_academic_year_from_term term true).map (fun aid_year =>
    let dfe2 := filter_enrollment_table dfe term
    let incoming_transfer_cohort := pySlice term 0 4 ++ " " ++ "Fall, Transfer, Full-Time"
    let pids := ((dfp.filter (fun p => p.aid_year == some aid_year)).filterMap
      (fun p => p.id)).toFinset
    let eids := (dfe2.filterMap (fun r => r.id)).toFinset
    let rids_t := ((dfr.filter (fun r => r.cohort_name == some incoming_transfer_cohort)).filterMap
      (fun r => r.id)).toFinset
    let n_pell_intr := (pids ∩ eids ∩ rids_t).card
    if !pell && !transfer then (eids.card : ℤ) - (rids_t.card : ℤ)
    else if pell && !transfer then ((pids ∩ eids).card : ℤ) - (n_pell_intr : ℤ)
    else if !pell && transfer then ((eids ∩ rids_t).card : ℤ)
    else (n_pell_intr : ℤ))

/-- `grs_cohort(dfr, id_column, term)`: row count of the
`construct_cohort(term)` cohort. -/
def grs_cohort (dfr : List RetRow) (term : String) : ℕ :=
  (dfr.filter (fun r =>
    r.cohort_name == some (construct_cohort term "Fall, First-Time, Full-Time"))).length

/-- The `Years to Graduation` condition of the graduation-rate functions:
`pd.to_numeric(dfr['Years to Graduation'].dropna(), errors='coerce') <= years_to_grad`,
with rows whose cell is missing or non-numeric excluded (pandas aligns
them to False under `&`). -/
def gradCond (r : RetRow) (years_to_grad : ℤ) : Bool :=
  match r.years_to_graduation with
  | none => false
  | some s =>
    match pyFloat? s with
    | none => false
    | some q => decide (q ≤ (years_to_grad : ℚ))

/-- `grs_cohort_grad(dfr, id_column, term, years_to_grad)`:
graduate-row count over cohort size, rounded to 3 places; `none` models
the `ZeroDivisionError` on an empty cohort. -/
def grs_cohort_grad (dfr : List RetRow) (term : String) (years_to_grad : ℤ) : Option ℚ :=
  let n_grad := (dfr.filter (fun r =>
    r.cohort_name == some (construct_cohort term "Fall, First-Time, Full-Time") &&
    gradCond r years_to_grad)).length
  let n_tot := grs_cohort dfr term
  if n_tot = 0 then none else some (pyRound ((n_grad : ℚ) / (n_tot : ℚ)) 3)

/-- `grs_cohort_pell(dfp, dfr, id_column, term)`: size of the overlap of
the aid-year Pell identifiers with the FED-cohort identifiers. -/
def grs_cohort_pell (dfp : List PellRow) (dfr : List RetRow) (term : String) : Option ℕ :=
  (calc_academic_year_from_term term true).map (fun aid_year =>
    let pids := ((dfp.filter (fun p => p.aid_year == some aid_year)).filterMap
      (fun p => p.id)).toFinset
    let rids := ((dfr.filter (fun r =>
      r.cohort_name == some (construct_cohort term "Fall, First-Time, Full-Time"))).filterMap
      (fun r => r.id)).toFinset
    (pids ∩ rids).card)

/-- `grs_cohort_pell_grad(dfp, dfr, id_column, term, years_to_grad)`. -/
def grs_cohort_pell_grad (dfp : List PellRow) (dfr : List RetRow) (term : String)
    (years_to_grad : ℤ) : Option ℚ :=
  (calc_academic_year_from_term term true).bind (fun aid_year =>
    let pids := ((dfp.filter (fun p => p.aid_year == some aid_year)).filterMap
      (fun p => p.id)).toFinset
    let rids := ((dfr.filter (fun r =>
      r.cohort_name == some (construct_cohort term "Fall, First-Time, Full-Time") &&
      gradCond r years_to_grad)).filterMap (fun r => r.id)).toFinset
    let n_grad := (pids ∩ rids).card
    (grs_cohort_pell dfp dfr term).bind (fun n_tot =>
      if n_tot = 0 then none else some (pyRound ((n_grad : ℚ) / (n_tot : ℚ)) 3)))

/-- `second_year_retention_rate(dfr, id_column, term)`. -/
def second_year_retention_rate (dfr : List RetRow) (term : String) : Option ℚ :=
  (adjust_term term 1).bind (fun retention_term =>
    let n_ret := (dfr.filter (fun r =>
      r.cohort_name == some (construct_cohort term "Fall, First-Time, Full-Time") &&
      r.acad_period_2nd_fall == some retention_term)).length
    let n_tot := grs_cohort dfr term
    if n_tot = 0 then none else some (pyRound ((n_ret : ℚ) / (n_tot : ℚ)) 3))

/-- `second_year_retention_rate_pell(dfp, dfr, id_column, term)`. -/
def second_year_retention_rate_pell (dfp : List PellRow) (dfr : List RetRow)
    (term : String) : Option ℚ :=
  (calc_academic_year_from_term term true).bind (fun aid_year =>
    let pids := ((dfp.filter (fun p => p.aid_year == some aid_year)).filterMap
      (fun p => p.id)).toFinset
    (adjust_term term 1).bind (fun retention_term =>
      let rids := ((dfr.filter (fun r =>
        r.cohort_name == some (construct_cohort term "Fall, First-Time, Full-Time") &&
        r.acad_period_2nd_fall == some retention_term)).filterMap (fun r => r.id)).toFinset
      let n_ret := (pids ∩ rids).card
      (grs_cohort_pell dfp dfr term).bind (fun n_tot =>
        if n_tot = 0 then none else some (pyRound ((n_ret : ℚ) / (n_tot : ℚ)) 3))))

/-! ## Spec-side vocabulary -/

/-- Spec §3: a term code is a 6-character string, 4-digit calendar year
then 2-digit period code. -/
def wellFormedTerm (term : String) : Bool :=
  term.data.length == 6 && (term.data.take 4).all Char.isDigit

/-- Spec: E, the filtered-enrollment identifier set for a term (distinct,
non-missing identifier values). -/
def enrollIds (dfe : List EnrRow) (term : String) : Finset String :=
  ((filter_enrollment_table dfe term).filterMap (fun r => r.id)).toFinset

/-- Spec: P, the Pell identifier set for an aid year. -/
def pellIds (dfp : List PellRow) (aid_year : String) : Finset String :=
  ((dfp.filter (fun p => p.aid_year == some aid_year)).filterMap (fun p => p.id)).toFinset

/-- Spec: T, the retention-table identifier set whose cohort label equals
the term's incoming-transfer cohort label `"{yyyy} Fall, Transfer, Full-Time"`. -/
def transferIds (dfr : List RetRow) (term : String) : Finset String :=
  ((dfr.filter (fun r =>
    r.cohort_name == some (pySlice term 0 4 ++ " Fall, Transfer, Full-Time"))).filterMap
    (fun r => r.id)).toFinset

/-- Spec: the FED-cohort identifier set, cohort label `construct_cohort(term)`. -/
def fedIds (dfr : List RetRow) (term : String) : Finset String :=
  ((dfr.filter (fun r =>
    r.cohort_name == some (construct_cohort term "Fall, First-Time, Full-Time"))).filterMap
    (fun r => r.id)).toFinset

/-- The optional result of a rate function is a value in `[0, 1]`. -/
def returnsUnitRate (o : Option ℚ) : Bool :=
  match o with
  | none => false
  | some q => decide (0 ≤ q) && decide (q ≤ 1)

/-- The zero-padded two-digit rendering of a number below 100 (the spec's
`{yy}` component of an academic year). -/
def pad2 (n : ℕ) : List Char :=
  if n < 10 then '0' :: pyNatRepr n else pyNatRepr n

/-! ## Concrete demonstration tables -/

/-- A two-student Pell table for aid year 2526. -/
def demo_dfp : List PellRow :=
  [⟨some "2526", some "1"⟩, ⟨some "2526", some "2"⟩]

/-- A retention table: two 2025 FED students (4-year graduates retained in
202680) and one 2025 incoming transfer student. -/
def demo_dfr : List RetRow :=
  [⟨some "2025 Fall, First-Time, Full-Time", some "4", some "202680", some "1"⟩,
   ⟨some "2025 Fall, First-Time, Full-Time", some "4", some "202680", some "2"⟩,
   ⟨some "2025 Fall, Transfer, Full-Time", none, none, some "3"⟩]

/-- A census enrollment table with the three students enrolled full-time
undergraduate degree-seeking in 202580. -/
def demo_dfe : List EnrRow :=
  [⟨some "202580", some "FT", some "UG", some "BA", some "1"⟩,
   ⟨some "202580", some "FT", some "UG", some "BA", some "2"⟩,
   ⟨some "202580", some "FT", some "UG", some "BA", some "3"⟩]

/-- The dataframe exhibiting the `remove_leading_zeros` column bug: the
identifier column is named `SID`, and an unrelated `ID` column is present. -/
def demo_clean_df : Df :=
  ⟨[("SID", [some "00123"]), ("ID", [some "007"])]⟩

/-! ## Lemmas about the primitives -/

theorem pyNatReprAux_irrel (n : ℕ) :
    ∀ f₁ f₂, n < f₁ → n < f₂ → pyNatReprAux f₁ n = pyNatReprAux f₂ n := by
  induction n using Nat.strong_induction_on with
  | _ n ih =>
    intro f₁ f₂ h₁ h₂
    obtain ⟨k₁, rfl⟩ : ∃ k, f₁ = k + 1 := ⟨f₁ - 1, by omega⟩
    obtain ⟨k₂, rfl⟩ : ∃ k, f₂ = k + 1 := ⟨f₂ - 1, by omega⟩
    simp only [pyNatReprAux]
    by_cases h10 : n < 10
    · simp [h10]
    · have hd : n / 10 < n := Nat.div_lt_self (by omega) (by omega)
      simp only [h10, if_false]
      rw [ih (n / 10) hd k₁ k₂ (by omega) (by omega)]

theorem pyNatRepr_eq (n : ℕ) :
    pyNatRepr n = if n < 10 then [Nat.digitChar n]
      else pyNatRepr (n / 10) ++ [Nat.digitChar (n % 10)] := by
  have base : pyNatRepr n = if n < 10 then [Nat.digitChar n]
      else pyNatReprAux n (n / 10) ++ [Nat.digitChar (n % 10)] := rfl
  rw [base]
  by_cases h10 : n < 10
  · simp [h10]
  · have hd : n / 10 < n := Nat.div_lt_self (by omega) (by omega)
    simp only [h10, if_false]
    rw [pyNatReprAux_irrel (n / 10) n (n / 10 + 1) hd (by omega)]
    rfl

theorem digitChar_isDigit : ∀ v : ℕ, v < 10 → (Nat.digitChar v).isDigit = true := by decide

theorem digitChar_val : ∀ v : ℕ, v < 10 → (Nat.digitChar v).toNat - 48 = v := by decide

theorem parseDigits_append_singleton (l : List Char) (c : Char) :
    parseDigits (l ++ [c]) = 10 * parseDigits l + (c.toNat - 48) := by
  simp [parseDigits, List.foldl_append]

theorem parseDigits_pyNatRepr (n : ℕ) : parseDigits (pyNatRepr n) = n := by
  induction n using Nat.strong_induction_on with
  | _ n ih =>
    rw [pyNatRepr_eq]
    by_cases h10 : n < 10
    · simp only [h10, if_true]
      show parseDigits ([] ++ [Nat.digitChar n]) = n
      rw [parseDigits_append_singleton, digitChar_val n h10]
      simp [parseDigits]
    · have hd : n / 10 < n := Nat.div_lt_self (by omega) (by omega)
      simp only [h10, if_false]
      rw [parseDigits_append_singleton, ih (n / 10) hd,
        digitChar_val (n % 10) (Nat.mod_lt _ (by omega))]
      omega

theorem pyNatRepr_all_digits (n : ℕ) : (pyNatRepr n).all Char.isDigit = true := by
  induction n using Nat.strong_induction_on with
  | _ n ih =>
    rw [pyNatRepr_eq]
    by_cases h10 : n < 10
    · simp [h10, digitChar_isDigit n h10]
    · have hd : n / 10 < n := Nat.div_lt_self (by omega) (by omega)
      simp [h10, List.all_append, ih (n / 10) hd,
        digitChar_isDigit (n % 10) (Nat.mod_lt _ (by omega))]

theorem pyNatRepr_ne_nil (n : ℕ) : pyNatRepr n ≠ [] := by
  rw [pyNatRepr_eq]; split <;> simp

theorem isDigits_pyNatRepr (n : ℕ) : isDigits (pyNatRepr n) = true := by
  simp [isDigits, pyNatRepr_all_digits, List.isEmpty_iff, pyNatRepr_ne_nil]

theorem pyNatRepr_length (d : ℕ) : ∀ n, 10 ^ d ≤ n → n < 10 ^ (d + 1) →
    (pyNatRepr n).length = d + 1 := by
  induction d with
  | zero =>
    intro n h1 h2
    rw [pyNatRepr_eq]
    have : n < 10 := by simpa using h2
    simp [this]
  | succ d ih =>
    intro n h1 h2
    have hten : (10:ℕ) ^ (d + 1) ≥ 10 := by
      calc (10:ℕ) ≤ 10 ^ 1 := by norm_num
      _ ≤ 10 ^ (d + 1) := Nat.pow_le_pow_right (by omega) (by omega)
    have h10 : ¬ n < 10 := by omega
    rw [pyNatRepr_eq]
    simp only [h10, if_false, List.length_append]
    have hdiv1 : 10 ^ d ≤ n / 10 := by
      rw [Nat.le_div_iff_mul_le (by omega)]
      calc 10 ^ d * 10 = 10 ^ (d + 1) := (pow_succ 10 d).symm
      _ ≤ n := h1
    have hdiv2 : n / 10 < 10 ^ (d + 1) := by
      rw [Nat.div_lt_iff_lt_mul (by omega)]
      calc n < 10 ^ (d + 2) := h2
      _ = 10 ^ (d + 1) * 10 := pow_succ 10 (d + 1)
    rw [ih (n / 10) hdiv1 hdiv2]
    simp

theorem isDigit_ne_dash (c : Char) (h : c.isDigit = true) : c ≠ '-' := by
  intro hEq
  rw [hEq] at h
  exact absurd h (by decide)

theorem pyInt?_mk_digits (l : List Char) (h : isDigits l = true) :
    pyInt? (String.mk l) = some ((parseDigits l : ℤ)) := by
  have h' := h
  simp only [isDigits, Bool.and_eq_true, Bool.not_eq_true', List.isEmpty_eq_false_iff_exists_mem] at h'
  obtain ⟨hne, hall⟩ := h'
  have hnil : l ≠ [] := by
    rintro rfl
    simp at hne
  obtain ⟨c, cs, rfl⟩ := List.exists_cons_of_ne_nil hnil
  have hc : c.isDigit = true := by
    have := List.all_eq_true.mp hall c (by simp)
    exact this
  have hcd : c ≠ '-' := isDigit_ne_dash c hc
  simp [pyInt?, hcd, h]

/-! ## Rounding bounds -/

theorem roundHalfEven_nonneg (x : ℚ) (hx : 0 ≤ x) : 0 ≤ roundHalfEven x := by
  have hf : (0:ℤ) ≤ ⌊x⌋ := Int.floor_nonneg.mpr hx
  unfold roundHalfEven
  split_ifs <;> omega

theorem roundHalfEven_le (x : ℚ) (m : ℤ) (hx : x ≤ (m : ℚ)) : roundHalfEven x ≤ m := by
  have hf : ⌊x⌋ ≤ m := by
    have h := Int.floor_le_floor hx
    rwa [Int.floor_intCast] at h
  unfold roundHalfEven
  split_ifs with h1 h2 h3
  · exact hf
  all_goals
    have hh : (1:ℚ)/2 ≤ x - ⌊x⌋ := le_of_not_lt h1
  all_goals
    have hfl : (⌊x⌋ : ℚ) < (m : ℚ) := by linarith
  all_goals
    have hflz : ⌊x⌋ < m := by exact_mod_cast hfl
  all_goals omega

theorem pyRound_nonneg (q : ℚ) (n : ℕ) (h : 0 ≤ q) : 0 ≤ pyRound q n := by
  unfold pyRound
  apply div_nonneg
  · exact_mod_cast roundHalfEven_nonneg _ (by positivity)
  · positivity

theorem pyRound_le_one (q : ℚ) (n : ℕ) (h1 : q ≤ 1) : pyRound q n ≤ 1 := by
  unfold pyRound
  rw [div_le_one (by positivity)]
  have hm : q * 10 ^ n ≤ (((10:ℤ) ^ n : ℤ) : ℚ) := by
    push_cast
    nlinarith [pow_pos (show (0:ℚ) < 10 by norm_num) n]
  have h := roundHalfEven_le (q * 10 ^ n) ((10:ℤ) ^ n) hm
  exact_mod_cast h

theorem rate_unit (a b : ℕ) (hab : a ≤ b) (hb : b ≠ 0) :
    returnsUnitRate (some (pyRound ((a : ℚ) / (b : ℚ)) 3)) = true := by
  have hbpos : (0:ℚ) < (b : ℚ) := by exact_mod_cast Nat.pos_of_ne_zero hb
  have h0 : 0 ≤ (a:ℚ)/(b:ℚ) := div_nonneg (by positivity) (le_of_lt hbpos)
  have h1 : (a:ℚ)/(b:ℚ) ≤ 1 := by
    rw [div_le_one hbpos]
    exact_mod_cast hab
  simp [returnsUnitRate, pyRound_nonneg _ _ h0, pyRound_le_one _ _ h1]

/-! ## Filter monotonicity -/

theorem length_filter_and_le {α : Type} (l : List α) (p q : α → Bool) :
    (l.filter (fun x => p x && q x)).length ≤ (l.filter p).length := by
  induction l with
  | nil => simp
  | cons a t ih =>
    simp only [List.filter_cons]
    cases hp : p a <;> cases hq : q a <;> simp [hp, hq] <;> omega

theorem toFinset_filterMap_and_subset {α β : Type} [DecidableEq β] (l : List α)
    (p q : α → Bool) (f : α → Option β) :
    ((l.filter (fun x => p x && q x)).filterMap f).toFinset ⊆
      ((l.filter p).filterMap f).toFinset := by
  intro b hb
  simp only [List.mem_toFinset, List.mem_filterMap, List.mem_filter, Bool.and_eq_true] at hb ⊢
  obtain ⟨a, ⟨ha, hpa, hqa⟩, hfa⟩ := hb
  exact ⟨a, ⟨ha, hpa⟩, hfa⟩

/-! ## Well-formed terms -/

theorem wf_take4 (term : String) (h : wellFormedTerm term = true) :
    isDigits (term.data.take 4) = true := by
  simp only [wellFormedTerm, Bool.and_eq_true, beq_iff_eq] at h
  obtain ⟨h6, hall⟩ := h
  have hlen : (term.data.take 4).length = 4 := by
    rw [List.length_take]; omega
  have hne : term.data.take 4 ≠ [] := by
    intro hq; rw [hq] at hlen; simp at hlen
  simp [isDigits, hall, hne]

theorem wf_slice24 (term : String) (h : wellFormedTerm term = true) :
    isDigits ((term.data.drop 2).take 2) = true := by
  simp only [wellFormedTerm, Bool.and_eq_true, beq_iff_eq] at h
  obtain ⟨h6, hall⟩ := h
  have heq : (term.data.drop 2).take 2 = (term.data.take 4).drop 2 := by
    rw [List.drop_take]
  have hlen : ((term.data.drop 2).take 2).length = 2 := by
    rw [List.length_take, List.length_drop]; omega
  have hne : (term.data.drop 2).take 2 ≠ [] := by
    intro hq; rw [hq] at hlen; simp at hlen
  have hall2 : ((term.data.drop 2).take 2).all Char.isDigit = true := by
    rw [heq]
    refine List.all_eq_true.mpr (fun x hx => ?_)
    exact List.all_eq_true.mp hall x (List.mem_of_mem_drop hx)
  simp [isDigits, hall2, hne]

theorem wf_calc_isSome (term : String) (h : wellFormedTerm term = true) :
    ∃ ay, calc_academic_year_from_term term true = some ay := by
  have hd := wf_slice24 term h
  have hrw : pyInt? (pySlice term 2 4)
      = some ((parseDigits ((term.data.drop 2).take 2) : ℤ)) :=
    pyInt?_mk_digits _ hd
  exact ⟨pySlice term 2 4 ++ pyStr ((parseDigits ((term.data.drop 2).take 2) : ℤ) + 1),
    by simp [calc_academic_year_from_term, hrw]⟩

theorem wf_adjust_isSome (term : String) (n : ℤ) (h : wellFormedTerm term = true) :
    ∃ t2, adjust_term term n = some t2 := by
  have hd := wf_take4 term h
  have hrw : pyInt? (pySlice term 0 4) = some ((parseDigits (term.data.take 4) : ℤ)) :=
    pyInt?_mk_digits _ hd
  exact ⟨pyStr ((parseDigits (term.data.take 4) : ℤ) + n) ++ pyTail2 term,
    by simp [adjust_term, hrw]⟩

/-! ## Claim theorems -/

/-- C9: calling `validate_columns` with `required_cols=None` — the declared
default — hits `set(None)` and raises a `TypeError` for every dataframe and
`id_column`, even when the identifier column is present. -/
theorem validate_columns_none_raises_type_error (df_columns : List String) (id_column : String) :
    validate_columns df_columns id_column none = Except.error ValidateError.typeError := rfl

/-- C6: `validate_columns` passes silently exactly when the required columns
plus the identifier column are a subset of the dataframe's columns, and
otherwise raises a `ValueError` naming exactly the missing columns. -/
theorem validate_columns_missing_characterization (df_columns : List String)
    (id_column : String) (rc : List String) :
    (validate_columns df_columns id_column (some rc) = Except.ok () ↔
      (insert id_column rc.toFinset : Finset String) ⊆ df_columns.toFinset) ∧
    (validate_columns df_columns id_column (some rc)
        = Except.error (ValidateError.missingColumns
          ((insert id_column rc.toFinset) \ df_columns.toFinset)) ↔
      ¬ (insert id_column rc.toFinset : Finset String) ⊆ df_columns.toFinset) := by
  by_cases hsub : (insert id_column rc.toFinset : Finset String) ⊆ df_columns.toFinset
  · have hm : (insert id_column rc.toFinset) \ df_columns.toFinset = ∅ :=
      Finset.sdiff_eq_empty_iff_subset.mpr hsub
    simp [validate_columns, hm, hsub]
  · have hm : ¬ ((insert id_column rc.toFinset) \ df_columns.toFinset = ∅) := by
      rw [Finset.sdiff_eq_empty_iff_subset]
      exact hsub
    simp [validate_columns, hm, hsub]

/-- C5: `remove_leading_zeros` strips the hard-coded `ID` column rather than
the passed `column`: with identifier column `SID` the `SID` values keep
their leading zeros while the unrelated `ID` column is rewritten, and with
no `ID` column present the call raises `KeyError` instead of normalizing
`SID`. -/
theorem remove_leading_zeros_hardcoded_id_eval :
    remove_leading_zeros demo_clean_df "SID"
      = Except.ok ⟨[("SID", [some "00123"]), ("ID", [some "7"])]⟩ ∧
    remove_leading_zeros ⟨[("SID", [some "00123"])]⟩ "SID"
      = Except.error (CleanError.keyError "ID") ∧
    lstripZeros "00123" = "123" ∧ lstripZeros "0000" = "" :=
  ⟨rfl, rfl, rfl, rfl⟩

/-- C2: `grs_cohort_pell` returns the cardinality of the intersection of the
aid-year Pell identifier set and the FED-cohort identifier set. -/
theorem grs_cohort_pell_intersection (dfp : List PellRow) (dfr : List RetRow)
    (term ay : String) (hay : calc_academic_year_from_term term true = some ay) :
    grs_cohort_pell dfp dfr term = some ((pellIds dfp ay ∩ fedIds dfr term).card) := by
  simp [grs_cohort_pell, hay, pellIds, fedIds]

theorem str_append_assoc (a b c : String) : a ++ b ++ c = a ++ (b ++ c) := by
  cases a
  cases b
  cases c
  show String.mk _ = String.mk _
  rw [List.append_assoc]

theorem transfer_label_eq (term : String) :
    pySlice term 0 4 ++ " " ++ "Fall, Transfer, Full-Time"
      = pySlice term 0 4 ++ " Fall, Transfer, Full-Time" := by
  rw [str_append_assoc]
  rfl

theorem fall_enrollment_cases (dfp : List PellRow) (dfr : List RetRow) (dfe : List EnrRow)
    (term ay : String) (hay : calc_academic_year_from_term term true = some ay) :
    fall_enrollment dfp dfr dfe term false false
      = some (((enrollIds dfe term).card : ℤ) - ((transferIds dfr term).card : ℤ)) ∧
    fall_enrollment dfp dfr dfe term true false
      = some (((pellIds dfp ay ∩ enrollIds dfe term).card : ℤ)
          - ((pellIds dfp ay ∩ enrollIds dfe term ∩ transferIds dfr term).card : ℤ)) ∧
    fall_enrollment dfp dfr dfe term false true
      = some (((enrollIds dfe term ∩ transferIds dfr term).card : ℤ)) ∧
    fall_enrollment dfp dfr dfe term true true
      = some (((pellIds dfp ay ∩ enrollIds dfe term ∩ transferIds dfr term).card : ℤ)) := by
  simp only [fall_enrollment, hay, Option.map_some', transfer_label_eq]
  refine ⟨?_, ?_, ?_, ?_⟩ <;> simp [enrollIds, pellIds, transferIds]

/-- C1: `fall_enrollment` computes exactly the four subpopulation sizes over
E (filtered-enrollment identifiers), P (aid-year Pell identifiers) and T
(incoming-transfer cohort identifiers): `|E| - |T|` (a count difference,
not a set difference), `|P ∩ E| - |P ∩ E ∩ T|`, `|E ∩ T|`, and
`|P ∩ E ∩ T|`. -/
theorem fall_enrollment_four_subpopulations (dfp : List PellRow) (dfr : List RetRow)
    (dfe : List EnrRow) (term ay : String)
    (hay : calc_academic_year_from_term term true = some ay) :
    fall_enrollment dfp dfr dfe term false false
      = some (((enrollIds dfe term).card : ℤ) - ((transferIds dfr term).card : ℤ)) ∧
    fall_enrollment dfp dfr dfe term true false
      = some (((pellIds dfp ay ∩ enrollIds dfe term).card : ℤ)
          - ((pellIds dfp ay ∩ enrollIds dfe term ∩ transferIds dfr term).card : ℤ)) ∧
    fall_enrollment dfp dfr dfe term false true
      = some (((enrollIds dfe term ∩ transferIds dfr term).card : ℤ)) ∧
    fall_enrollment dfp dfr dfe term true true
      = some (((pellIds dfp ay ∩ enrollIds dfe term ∩ transferIds dfr term).card : ℤ)) :=
  fall_enrollment_cases dfp dfr dfe term ay hay

/-- C10: the two Pell subpopulations of `fall_enrollment` sum to `|P ∩ E|`,
the number of distinct aid-year Pell identifiers in the filtered
enrollment. -/
theorem fall_enrollment_pell_partition (dfp : List PellRow) (dfr : List RetRow)
    (dfe : List EnrRow) (term ay : String)
    (hay : calc_academic_year_from_term term true = some ay) :
    (fall_enrollment dfp dfr dfe term true false).bind (fun a =>
      (fall_enrollment dfp dfr dfe term true true).map (fun b => a + b))
      = some (((pellIds dfp ay ∩ enrollIds dfe term).card : ℤ)) := by
  obtain ⟨-, h2, -, h4⟩ := fall_enrollment_cases dfp dfr dfe term ay hay
  rw [h2, h4]
  simp only [Option.some_bind, Option.map_some']
  congr 1
  omega

/-- C3: whenever the relevant denominator cohort is non-empty, each of the
four rate functions returns a value in `[0, 1]`, because the counted
numerator population is a subset of the denominator population by
construction. -/
theorem rate_functions_in_unit_interval (dfp : List PellRow) (dfr : List RetRow)
    (term : String) (years_to_grad : ℤ)
    (hwf : wellFormedTerm term = true)
    (hcoh : grs_cohort dfr term ≠ 0)
    (hpell : grs_cohort_pell dfp dfr term ≠ some 0) :
    returnsUnitRate (grs_cohort_grad dfr term years_to_grad) = true ∧
    returnsUnitRate (grs_cohort_pell_grad dfp dfr term years_to_grad) = true ∧
    returnsUnitRate (second_year_retention_rate dfr term) = true ∧
    returnsUnitRate (second_year_retention_rate_pell dfp dfr term) = true := by
  obtain ⟨ay, hay⟩ := wf_calc_isSome term hwf
  obtain ⟨rt, hrt⟩ := wf_adjust_isSome term 1 hwf
  have hgp : grs_cohort_pell dfp dfr term = some ((pellIds dfp ay ∩ fedIds dfr term).card) := by
    simp [grs_cohort_pell, hay, pellIds, fedIds]
  have hN0 : (pellIds dfp ay ∩ fedIds dfr term).card ≠ 0 := by
    intro h0
    apply hpell
    rw [hgp, h0]
  refine ⟨?_, ?_, ?_, ?_⟩
  · have hle : (dfr.filter (fun r =>
        r.cohort_name == some (construct_cohort term "Fall, First-Time, Full-Time") &&
        gradCond r years_to_grad)).length ≤ grs_cohort dfr term :=
      length_filter_and_le dfr _ _
    simp only [grs_cohort_grad, if_neg hcoh]
    exact rate_unit _ _ hle hcoh
  · have hsub : ((dfr.filter (fun r =>
        r.cohort_name == some (construct_cohort term "Fall, First-Time, Full-Time") &&
        gradCond r years_to_grad)).filterMap (fun r => r.id)).toFinset ⊆ fedIds dfr term :=
      toFinset_filterMap_and_subset dfr _ _ _
    have hle : (pellIds dfp ay ∩ ((dfr.filter (fun r =>
        r.cohort_name == some (construct_cohort term "Fall, First-Time, Full-Time") &&
        gradCond r years_to_grad)).filterMap (fun r => r.id)).toFinset).card
          ≤ (pellIds dfp ay ∩ fedIds dfr term).card :=
      Finset.card_le_card (Finset.inter_subset_inter (Finset.Subset.refl _) hsub)
    simp only [grs_cohort_pell_grad, hay, Option.some_bind, hgp, if_neg hN0]
    exact rate_unit _ _ hle hN0
  · have hle : (dfr.filter (fun r =>
        r.cohort_name == some (construct_cohort term "Fall, First-Time, Full-Time") &&
        r.acad_period_2nd_fall == some rt)).length ≤ grs_cohort dfr term :=
      length_filter_and_le dfr _ _
    simp only [second_year_retention_rate, hrt, Option.some_bind, if_neg hcoh]
    exact rate_unit _ _ hle hcoh
  · have hsub : ((dfr.filter (fun r =>
        r.cohort_name == some (construct_cohort term "Fall, First-Time, Full-Time") &&
        r.acad_period_2nd_fall == some rt)).filterMap (fun r => r.id)).toFinset ⊆ fedIds dfr term :=
      toFinset_filterMap_and_subset dfr _ _ _
    have hle : (pellIds dfp ay ∩ ((dfr.filter (fun r =>
        r.cohort_name == some (construct_cohort term "Fall, First-Time, Full-Time") &&
        r.acad_period_2nd_fall == some rt)).filterMap (fun r => r.id)).toFinset).card
          ≤ (pellIds dfp ay ∩ fedIds dfr term).card :=
      Finset.card_le_card (Finset.inter_subset_inter (Finset.Subset.refl _) hsub)
    simp only [second_year_retention_rate_pell, hay, Option.some_bind, hrt, hgp, if_neg hN0]
    exact rate_unit _ _ hle hN0

theorem pyNatRepr_length_lt10 (n : ℕ) (h : n < 10) : (pyNatRepr n).length = 1 := by
  rw [pyNatRepr_eq]
  simp [h]

theorem pad2_length (n : ℕ) (h : n ≤ 99) : (pad2 n).length = 2 := by
  unfold pad2
  split_ifs with h10
  · simp [pyNatRepr_length_lt10 n h10]
  · exact pyNatRepr_length 1 n (by omega) (by omega)

theorem pad2_parse (n : ℕ) : parseDigits (pad2 n) = n := by
  unfold pad2
  split_ifs with h10
  · rw [pyNatRepr_eq, if_pos h10]
    have hv := digitChar_val n h10
    simp [parseDigits]
    omega
  · exact parseDigits_pyNatRepr n

theorem pad2_all_digits (n : ℕ) : (pad2 n).all Char.isDigit = true := by
  unfold pad2
  split_ifs with h10
  · simp [pyNatRepr_all_digits]
  · exact pyNatRepr_all_digits n

theorem isDigits_pad2 (n : ℕ) : isDigits (pad2 n) = true := by
  have hne : pad2 n ≠ [] := by
    intro hq
    unfold pad2 at hq
    split_ifs at hq
    exact pyNatRepr_ne_nil n hq
  simp [isDigits, pad2_all_digits, hne]

/-- C4 counterexample: at the well-formed term `'200880'` the two-digit
academic year comes out as the 3-character `'089'`, not a 4-character
two-digit pair. -/
theorem calc_academic_year_three_char_counterexample :
    calc_academic_year_from_term "200880" true = some "089" ∧
    ("089" : String).data.length ≠ 4 :=
  ⟨rfl, by decide⟩

/-- C4 (amended): for a well-formed 6-character term whose year-in-century
digits form `yy` with `9 ≤ yy ≤ 98`, the two-digit academic year is the
4-character pair `{yy}{yy+1}`; the hyphenated form is
`{yyyy}-{yyyy+1}` with the successor rendered unpadded. -/
theorem calc_academic_year_amended (term : String) (a b e f : Char) (yy : ℕ)
    (hdata : term.data = [a, b] ++ pad2 yy ++ [e, f])
    (ha : a.isDigit = true) (hb : b.isDigit = true)
    (h9 : 9 ≤ yy) (h98 : yy ≤ 98) :
    calc_academic_year_from_term term true = some (String.mk (pad2 yy ++ pad2 (yy + 1))) ∧
    (pad2 yy ++ pad2 (yy + 1)).length = 4 ∧
    calc_academic_year_from_term term false
      = some (String.mk ([a, b] ++ pad2 yy) ++ "-"
          ++ pyStr ((parseDigits ([a, b] ++ pad2 yy) : ℤ) + 1)) := by
  have hlen2 : (pad2 yy).length = 2 := pad2_length yy (by omega)
  have hslice24 : pySlice term 2 4 = String.mk (pad2 yy) := by
    show String.mk ((term.data.drop 2).take 2) = String.mk (pad2 yy)
    rw [hdata]
    congr 1
    show (pad2 yy ++ [e, f]).take 2 = pad2 yy
    rw [show (2 : ℕ) = (pad2 yy).length from hlen2.symm, List.take_left]
  have hslice04 : pySlice term 0 4 = String.mk ([a, b] ++ pad2 yy) := by
    show String.mk ((term.data.drop 0).take 4) = String.mk ([a, b] ++ pad2 yy)
    rw [hdata]
    congr 1
    show a :: b :: (pad2 yy ++ [e, f]).take 2 = a :: b :: pad2 yy
    rw [show (2 : ℕ) = (pad2 yy).length from hlen2.symm, List.take_left]
  have hstr : pyStr ((yy : ℤ) + 1) = String.mk (pad2 (yy + 1)) := by
    unfold pyStr
    rw [if_neg (by omega : ¬ ((yy : ℤ) + 1 < 0))]
    congr 1
    rw [show ((yy : ℤ) + 1).natAbs = yy + 1 from by omega]
    unfold pad2
    rw [if_neg (by omega : ¬ (yy + 1 < 10))]
  have hdig04 : isDigits ([a, b] ++ pad2 yy) = true := by
    have hall : (pad2 yy).all Char.isDigit = true := pad2_all_digits yy
    simp [isDigits, List.all_append, ha, hb, hall]
  refine ⟨?_, ?_, ?_⟩
  · have hred : calc_academic_year_from_term term true
        = (pyInt? (pySlice term 2 4)).map (fun n => pySlice term 2 4 ++ pyStr (n + 1)) := rfl
    rw [hred, hslice24, pyInt?_mk_digits _ (isDigits_pad2 yy),
      pad2_parse yy]
    simp only [Option.map_some']
    rw [hstr]
    rfl
  · rw [List.length_append, hlen2, pad2_length (yy + 1) (by omega)]
  · have hred : calc_academic_year_from_term term false
        = (pyInt? (pySlice term 0 4)).map (fun n => pySlice term 0 4 ++ "-" ++ pyStr (n + 1)) := rfl
    rw [hred, hslice04, pyInt?_mk_digits _ hdig04]
    rfl

/-- C4 witness: the amended statement at `'202580'` (`yy = 25`), recovering
the spec's example `'2526'`. -/
theorem calc_academic_year_amended_witness :
    ("202580" : String).data = ['2', '0'] ++ pad2 25 ++ ['8', '0'] ∧
    ('2' : Char).isDigit = true ∧ ('0' : Char).isDigit = true ∧
    9 ≤ 25 ∧ 25 ≤ 98 ∧
    (calc_academic_year_from_term "202580" true = some (String.mk (pad2 25 ++ pad2 (25 + 1))) ∧
     (pad2 25 ++ pad2 (25 + 1)).length = 4 ∧
     calc_academic_year_from_term "202580" false
       = some (String.mk (['2', '0'] ++ pad2 25) ++ "-"
           ++ pyStr ((parseDigits (['2', '0'] ++ pad2 25) : ℤ) + 1))) ∧
    String.mk (pad2 25 ++ pad2 (25 + 1)) = "2526" :=
  ⟨by decide, by decide, by decide, by decide, by decide,
   calc_academic_year_amended "202580" '2' '0' '8' '0' 25 (by decide) (by decide) (by decide)
     (by decide) (by decide),
   by decide⟩

theorem roundHalfEven_intCast (z : ℤ) : roundHalfEven ((z : ℚ)) = z := by
  unfold roundHalfEven
  rw [Int.floor_intCast]
  norm_num

theorem pyRoundAt_abs (q : ℚ) (z : ℤ) : pyRoundAt q |z| = pyRound q z.natAbs := by
  unfold pyRoundAt pyRound
  rw [Int.abs_eq_natAbs, zpow_natCast]

/-- C7 counterexample: at `num = 1234`, `denom = 1`, `round_to = -2` the
function returns `1234` (it rounds at `abs(round_to)` places), while
`round(num/denom, round_to)` is `1200`. -/
theorem calc_percent_negative_round_to_counterexample :
    calc_percent (PyVal.vint 1234) (PyVal.vint 1) (PyVal.vint (-2)) = Except.ok 1234 ∧
    pyRoundAt ((1234 : ℚ) / (1 : ℚ)) (-2) = 1200 ∧
    (1234 : ℚ) ≠ 1200 := by
  refine ⟨?_, ?_, by norm_num⟩
  · have h1 : calc_percent (PyVal.vint 1234) (PyVal.vint 1) (PyVal.vint (-2))
        = Except.ok (pyRound (((1234 : ℤ) : ℚ) / ((1 : ℤ) : ℚ)) (Int.natAbs (-2))) := by
      simp [calc_percent, PyVal.isNumeric, PyVal.toQ]
    rw [h1]
    congr 1
    have h2 : (((1234 : ℤ) : ℚ) / ((1 : ℤ) : ℚ)) * 10 ^ (Int.natAbs (-2))
        = ((123400 : ℤ) : ℚ) := by norm_num
    unfold pyRound
    rw [h2, roundHalfEven_intCast]
    norm_num
  · have hx : ((1234 : ℚ) / (1 : ℚ)) * (10 : ℚ) ^ (-2 : ℤ) = 617 / 50 := by
      norm_num [zpow_neg]
    have hf : ⌊(617 / 50 : ℚ)⌋ = 12 := by
      rw [Int.floor_eq_iff]
      norm_num
    unfold pyRoundAt roundHalfEven
    rw [hx, hf]
    norm_num [zpow_neg]

/-- C7 (amended): for numeric arguments with an integer `round_to` and a
nonzero denominator, `calc_percent` returns
`round(num/denom, abs(round_to))` — the number of decimal places is the
absolute value of `round_to` — and it raises a type error whenever any of
the three arguments is non-numeric. -/
theorem calc_percent_amended (num denom round_to : PyVal) (z : ℤ)
    (hn : num.isNumeric = true) (hd : denom.isNumeric = true) (hdz : denom.toQ ≠ 0) :
    calc_percent num denom (PyVal.vint z) = Except.ok (pyRoundAt (num.toQ / denom.toQ) |z|) ∧
    ((num.isNumeric && denom.isNumeric && round_to.isNumeric) = false →
      calc_percent num denom round_to = Except.error PercentError.typeError) := by
  constructor
  · rw [pyRoundAt_abs]
    have hz : (PyVal.vint z).isNumeric = true := rfl
    simp [calc_percent, hn, hd, hdz, hz]
  · intro hfalse
    simp [calc_percent, hfalse]

/-- C7 witness: `calc_percent(1, 4, 2)` is `round(1/4, |2|) = 0.25`, and a
string third argument raises the type error. -/
theorem calc_percent_amended_witness :
    (PyVal.vint 1).isNumeric = true ∧ (PyVal.vint 4).isNumeric = true ∧
    (PyVal.vint 4).toQ ≠ 0 ∧
    (calc_percent (PyVal.vint 1) (PyVal.vint 4) (PyVal.vint 2)
        = Except.ok (pyRoundAt ((PyVal.vint 1).toQ / (PyVal.vint 4).toQ) |(2 : ℤ)|) ∧
     (((PyVal.vint 1).isNumeric && (PyVal.vint 4).isNumeric &&
        (PyVal.vstr "x").isNumeric) = false →
       calc_percent (PyVal.vint 1) (PyVal.vint 4) (PyVal.vstr "x")
         = Except.error PercentError.typeError)) :=
  ⟨rfl, rfl, by norm_num [PyVal.toQ],
   calc_percent_amended (PyVal.vint 1) (PyVal.vint 4) (PyVal.vstr "x") 2 rfl rfl
     (by norm_num [PyVal.toQ])⟩

/-- C8 counterexample: at `t = '202580'`, `n = 9000` the shifted year has
five digits, the 4-character slice of the shifted term misparses on the way
back, and the round trip produces `'-789880'` instead of `'202580'`. -/
theorem adjust_term_not_involutive :
    adjust_term "202580" 9000 = some "1102580" ∧
    adjust_term "1102580" (-9000) = some "-789880" ∧
    ("-789880" : String) ≠ "202580" :=
  ⟨rfl, rfl, by decide⟩

theorem adjust_term_step (Y : ℕ) (e f : Char) (n : ℤ)
    (hY1 : 1000 ≤ Y) (hY2 : Y ≤ 9999)
    (hZ1 : 1000 ≤ (Y : ℤ) + n) (hZ2 : (Y : ℤ) + n ≤ 9999) :
    adjust_term (String.mk (pyNatRepr Y ++ [e, f])) n
      = some (String.mk (pyNatRepr ((Y : ℤ) + n).natAbs ++ [e, f])) := by
  have hlen : (pyNatRepr Y).length = 4 :=
    pyNatRepr_length 3 Y (by rw [show (10 : ℕ) ^ 3 = 1000 from by norm_num]; exact hY1)
      (by rw [show (10 : ℕ) ^ (3 + 1) = 10000 from by norm_num]; omega)
  have hslice : pySlice (String.mk (pyNatRepr Y ++ [e, f])) 0 4 = String.mk (pyNatRepr Y) := by
    show String.mk (((pyNatRepr Y ++ [e, f]).drop 0).take 4) = String.mk (pyNatRepr Y)
    congr 1
    rw [List.drop_zero, show (4 : ℕ) = (pyNatRepr Y).length from hlen.symm, List.take_left]
  have htail : pyTail2 (String.mk (pyNatRepr Y ++ [e, f])) = String.mk [e, f] := by
    show String.mk ((pyNatRepr Y ++ [e, f]).drop ((pyNatRepr Y ++ [e, f]).length - 2))
      = String.mk [e, f]
    congr 1
    have h6 : (pyNatRepr Y ++ [e, f]).length = 6 := by simp [hlen]
    rw [h6, show (6 : ℕ) - 2 = (pyNatRepr Y).length from by omega, List.drop_left]
  simp only [adjust_term, hslice, pyInt?_mk_digits _ (isDigits_pyNatRepr Y),
    parseDigits_pyNatRepr, Option.map_some']
  rw [htail]
  unfold pyStr
  rw [if_neg (by omega : ¬ ((Y : ℤ) + n < 0))]
  rfl

/-- C8 (amended): for every term of the shape 4-digit-year followed by a
2-character period code, with both the year and the shifted year in
`[1000, 9999]`, `adjust_term` shifts the year prefix by `n`, leaves the
period code unchanged, and `adjust_term(adjust_term(t, n), -n) = t`. -/
theorem adjust_term_roundtrip_amended (term : String) (Y : ℕ) (e f : Char) (n : ℤ)
    (hterm : term = String.mk (pyNatRepr Y ++ [e, f]))
    (hY1 : 1000 ≤ Y) (hY2 : Y ≤ 9999)
    (hZ1 : 1000 ≤ (Y : ℤ) + n) (hZ2 : (Y : ℤ) + n ≤ 9999) :
    adjust_term term n = some (String.mk (pyNatRepr ((Y : ℤ) + n).natAbs ++ [e, f])) ∧
    adjust_term (String.mk (pyNatRepr ((Y : ℤ) + n).natAbs ++ [e, f])) (-n) = some term := by
  subst hterm
  refine ⟨adjust_term_step Y e f n hY1 hY2 hZ1 hZ2, ?_⟩
  have hstep := adjust_term_step (((Y : ℤ) + n).natAbs) e f (-n)
    (by omega) (by omega) (by omega) (by omega)
  rw [hstep]
  have harg : ((((Y : ℤ) + n).natAbs : ℤ) + -n).natAbs = Y := by omega
  rw [harg]

/-- C8 witness: the amended round trip at `t = '202580'`, `n = 4`, passing
through `'202980'`. -/
theorem adjust_term_roundtrip_witness :
    ("202580" : String) = String.mk (pyNatRepr 2025 ++ ['8', '0']) ∧
    1000 ≤ 2025 ∧ 2025 ≤ 9999 ∧
    1000 ≤ (2025 : ℤ) + 4 ∧ (2025 : ℤ) + 4 ≤ 9999 ∧
    (adjust_term "202580" 4
        = some (String.mk (pyNatRepr ((2025 : ℤ) + 4).natAbs ++ ['8', '0'])) ∧
     adjust_term (String.mk (pyNatRepr ((2025 : ℤ) + 4).natAbs ++ ['8', '0'])) (-4)
        = some "202580") ∧
    String.mk (pyNatRepr ((2025 : ℤ) + 4).natAbs ++ ['8', '0']) = "202980" :=
  ⟨by decide, by decide, by decide, by decide, by decide,
   adjust_term_roundtrip_amended "202580" 2025 '8' '0' 4 (by decide) (by decide) (by decide)
     (by decide) (by decide),
   by decide⟩

/-- C1 witness: the four subpopulation equations at the demonstration
tables and term `'202580'` (aid year `'2526'`). -/
theorem fall_enrollment_four_subpopulations_witness :
    calc_academic_year_from_term "202580" true = some "2526" ∧
    (fall_enrollment demo_dfp demo_dfr demo_dfe "202580" false false
      = some (((enrollIds demo_dfe "202580").card : ℤ)
          - ((transferIds demo_dfr "202580").card : ℤ)) ∧
    fall_enrollment demo_dfp demo_dfr demo_dfe "202580" true false
      = some (((pellIds demo_dfp "2526" ∩ enrollIds demo_dfe "202580").card : ℤ)
          - ((pellIds demo_dfp "2526" ∩ enrollIds demo_dfe "202580"
              ∩ transferIds demo_dfr "202580").card : ℤ)) ∧
    fall_enrollment demo_dfp demo_dfr demo_dfe "202580" false true
      = some (((enrollIds demo_dfe "202580" ∩ transferIds demo_dfr "202580").card : ℤ)) ∧
    fall_enrollment demo_dfp demo_dfr demo_dfe "202580" true true
      = some (((pellIds demo_dfp "2526" ∩ enrollIds demo_dfe "202580"
          ∩ transferIds demo_dfr "202580").card : ℤ))) :=
  ⟨by decide,
   fall_enrollment_four_subpopulations demo_dfp demo_dfr demo_dfe "202580" "2526" (by decide)⟩

/-- C2 witness: the end-to-end scenario — a Pell table with 2 matching
aid-year identifiers and a retention table with those identifiers under the
FED cohort label for `'202580'` — where `grs_cohort_pell` returns `2`. -/
theorem grs_cohort_pell_intersection_witness :
    calc_academic_year_from_term "202580" true = some "2526" ∧
    grs_cohort_pell demo_dfp demo_dfr "202580"
      = some ((pellIds demo_dfp "2526" ∩ fedIds demo_dfr "202580").card) ∧
    grs_cohort_pell demo_dfp demo_dfr "202580" = some 2 :=
  ⟨by decide,
   grs_cohort_pell_intersection demo_dfp demo_dfr "202580" "2526" (by decide),
   by decide⟩

/-- C3 witness: the four unit-interval memberships at the demonstration
tables, term `'202580'`, four years to graduation. -/
theorem rate_functions_in_unit_interval_witness :
    wellFormedTerm "202580" = true ∧
    grs_cohort demo_dfr "202580" ≠ 0 ∧
    grs_cohort_pell demo_dfp demo_dfr "202580" ≠ some 0 ∧
    (returnsUnitRate (grs_cohort_grad demo_dfr "202580" 4) = true ∧
     returnsUnitRate (grs_cohort_pell_grad demo_dfp demo_dfr "202580" 4) = true ∧
     returnsUnitRate (second_year_retention_rate demo_dfr "202580") = true ∧
     returnsUnitRate (second_year_retention_rate_pell demo_dfp demo_dfr "202580") = true) :=
  ⟨by decide, by decide, by decide,
   rate_functions_in_unit_interval demo_dfp demo_dfr "202580" 4 (by decide) (by decide)
     (by decide)⟩

/-- C10 witness: the Pell partition equation at the demonstration tables. -/
theorem fall_enrollment_pell_partition_witness :
    calc_academic_year_from_term "202580" true = some "2526" ∧
    (fall_enrollment demo_dfp demo_dfr demo_dfe "202580" true false).bind (fun a =>
      (fall_enrollment demo_dfp demo_dfr demo_dfe "202580" true true).map (fun b => a + b))
      = some (((pellIds demo_dfp "2526" ∩ enrollIds demo_dfe "202580").card : ℤ)) :=
  ⟨by decide,
   fall_enrollment_pell_partition demo_dfp demo_dfr demo_dfe "202580" "2526" (by decide)⟩
